import Mathlib

/-!
# Verification of the rust-mold per-tick control logic

Shallow embedding of `src/main.rs` of the `adamipc/rust-mold` repository: the
per-frame callback passed to `start_loop`, which drains the beat channel, draws,
advances simulated time `u_time`, processes window/keyboard and MIDI events into
a set of action flags, and applies those flags (preset transitions, point
regeneration, texture clearing, the beat-sync excursion logic, screenshots,
fullscreen toggling, loop stop).

Machine `f32` arithmetic is embedded as exact rational arithmetic (`ℚ`); the
Rust integer types (`u8`/`u32`) carrying pad, knob, value and scancode data are
embedded as `ℕ` (all relevant operations in the source stay far from overflow,
and `scancode - 1` is only taken under the guard `scancode >= 2`).

The modules `preset.rs` and `slime_mould.rs` are not part of the visible
source; the definitions below that stand in for them are modelled from the
spec and are marked as such in their doc comments.
-/

namespace RustMold

/-- Modelled from the spec: `Preset` (from the missing `preset.rs`) — an
immutable bundle of plain numeric simulation constants, interpolated
field-by-field by transitions. It is modelled by a single representative
rational field; nothing in the visible control logic inspects individual
fields, so one field loses no behaviour relevant to the claims. -/
structure Preset where
  val : ℚ
  deriving DecidableEq, Repr

/-- Modelled from the spec: `Preset::new(PresetName::from_u32(n))` (from the
missing `preset.rs`) maps a small integer, reduced modulo the catalog size
(10, matching the 0–9 addressing scheme), to a fixed catalog entry; the
catalog entries are distinct. -/
def Preset.new (n : ℕ) : Preset := ⟨((n % 10 : ℕ) : ℚ)⟩

/-- `clamp(x, 0, 1)` used by the transition interpolator. -/
def clamp01 (x : ℚ) : ℚ := max 0 (min 1 x)

/-- Field-by-field linear interpolation between two presets. -/
def Preset.lerp (a b : Preset) (t : ℚ) : Preset := ⟨a.val + (b.val - a.val) * t⟩

/-- A `Transition` record: source preset, destination preset, start time in
simulated time units, and duration. -/
structure Transition where
  source : Preset
  dest : Preset
  start : ℚ
  duration : ℚ
  deriving DecidableEq, Repr

/-- Modelled from the spec: the effective blended parameter set of a
transition at simulated time `now` is
`lerp(source, dest, clamp((now - start)/duration, 0, 1))`. -/
def Transition.effective (tr : Transition) (now : ℚ) : Preset :=
  tr.source.lerp tr.dest (clamp01 ((now - tr.start) / tr.duration))

/-- Modelled from the spec: the `SlimeMould` engine state (from the missing
`slime_mould.rs`) as visible to the control loop in `main.rs`: the currently
installed transition, plus abstract generation counters recording how many
times `reset_points`, `clear`, `update` and `save_preset` have been invoked
(the GPU-resident agent/trail buffers themselves are opaque to the control
logic). -/
structure SlimeMould where
  transition : Transition
  pointsGen : ℕ
  clearCount : ℕ
  updateCount : ℕ
  saveCount : ℕ
  deriving DecidableEq, Repr

/-- Modelled from the spec: `get_preset()` returns the effective (possibly
mid-transition) interpolated parameter set for the current simulated time. -/
def SlimeMould.get_preset (sm : SlimeMould) (now : ℚ) : Preset :=
  sm.transition.effective now

/-- Modelled from the spec: `transition_preset(from, to, now, duration)`
installs a new transition record. -/
def SlimeMould.transition_preset (sm : SlimeMould) (source dest : Preset)
    (now duration : ℚ) : SlimeMould :=
  { sm with transition := ⟨source, dest, now, duration⟩ }

/-- Modelled from the spec: `reset_points()` re-initializes the agent
population (here: bumps the points generation counter) without touching the
installed transition. -/
def SlimeMould.reset_points (sm : SlimeMould) : SlimeMould :=
  { sm with pointsGen := sm.pointsGen + 1 }

/-- Modelled from the spec: `clear()` zeroes trail buffers; it does not touch
the installed transition or the agent generation. -/
def SlimeMould.clear (sm : SlimeMould) : SlimeMould :=
  { sm with clearCount := sm.clearCount + 1 }

/-- Modelled from the spec: the per-frame `update()` runs the GPU passes and
swaps trail-buffer roles; it does not change the installed transition or the
preset state visible to the control loop. -/
def SlimeMould.update (sm : SlimeMould) : SlimeMould :=
  { sm with updateCount := sm.updateCount + 1 }

/-- Modelled from the spec: `save_preset()` serializes the nominal current
preset; no core simulation state changes. -/
def SlimeMould.save_preset (sm : SlimeMould) : SlimeMould :=
  { sm with saveCount := sm.saveCount + 1 }

/-- The virtual keycodes distinguished by the keyboard handler in `main.rs`
(`Back` is the backspace key); every other keycode is collapsed into
`OtherKey`, which the handler ignores. -/
inductive VirtualKeyCode
  | Escape
  | Return
  | R
  | P
  | C
  | S
  | Back
  | OtherKey (n : ℕ)
  deriving DecidableEq, Repr

/-- A `KeyboardInput`: element state (pressed or released), optional virtual
keycode, and hardware scancode. -/
structure KeyboardInput where
  pressed : Bool
  virtual_keycode : Option VirtualKeyCode
  scancode : ℕ
  deriving DecidableEq, Repr

/-- The window events distinguished by the event loop in `main.rs`. -/
inductive WindowEv
  | CloseRequested
  | KeyboardInput (input : KeyboardInput)
  | OtherWindowEvent
  deriving DecidableEq, Repr

/-- A winit event as seen by the tick callback: window events carry whether
their `window_id` matches the primary window; everything else is ignored. -/
inductive Ev
  | WindowEvent (sameWindow : Bool) (ev : WindowEv)
  | OtherEvent
  deriving DecidableEq, Repr

/-- MIDI messages from the MPD218 controller: pad presses
(pad, velocity, extra), knob changes (knob, value, extra), and anything
else. -/
inductive Mpd218Message
  | PadPressed (pad velocity extra : ℕ)
  | KnobChanged (knob value extra : ℕ)
  | OtherMessage
  deriving DecidableEq, Repr

/-- The `Action` directive returned by the tick callback. -/
inductive Action
  | Stop
  | Continue
  deriving DecidableEq, Repr

/-- The mutable flag block declared at the top of the tick closure in
`main.rs` (lines 101–111). -/
structure Flags where
  randomize_beat_preset : Bool
  toggle_fullscreen : Bool
  stop_event_loop : Bool
  randomize_preset : Bool
  regenerate_points : Bool
  backspace_pressed : Bool
  clear_textures : Bool
  save_preset : Bool
  load_preset_number : ℤ
  load_beat_preset_number : ℤ
  deriving DecidableEq, Repr

/-- The initial flag values at the start of each tick: all booleans false,
both load numbers `-1`. -/
def initFlags : Flags :=
  ⟨false, false, false, false, false, false, false, false, -1, -1⟩

/-- The keyboard-input handler (`main.rs` lines 118–134): on a pressed key,
set the flag matching the virtual keycode, then, if the scancode is in
`[2, 11]` (the digit row), set `load_preset_number := (scancode - 1) % 10`. -/
def applyKeyFlags (f : Flags) (i : KeyboardInput) : Flags :=
  if i.pressed then
    let f1 :=
      match i.virtual_keycode with
      | some .Escape => { f with stop_event_loop := true }
      | some .Return => { f with toggle_fullscreen := true }
      | some .R => { f with randomize_preset := true }
      | some .P => { f with regenerate_points := true }
      | some .C => { f with clear_textures := true }
      | some .S => { f with save_preset := true }
      | some .Back => { f with backspace_pressed := true }
      | _ => f
    if 2 ≤ i.scancode ∧ i.scancode ≤ 11 then
      { f1 with load_preset_number := (((i.scancode - 1) % 10 : ℕ) : ℤ) }
    else f1
  else f

/-- One step of the window-event loop (`main.rs` lines 113–140): events from
other windows are skipped; `CloseRequested` sets the action to `Stop`;
keyboard input updates the flags. -/
def stepWindowEvent (fa : Flags × Action) (e : Ev) : Flags × Action :=
  match e with
  | .WindowEvent same ev =>
    if same then
      match ev with
      | .CloseRequested => (fa.1, Action.Stop)
      | .KeyboardInput i => (applyKeyFlags fa.1 i, fa.2)
      | .OtherWindowEvent => fa
    else fa
  | .OtherEvent => fa

/-- The window-event loop: fold `stepWindowEvent` over the pending events. -/
def processWindowEvents (events : List Ev) (f : Flags) (a : Action) :
    Flags × Action :=
  events.foldl stepWindowEvent (f, a)

/-- Accumulator for the MIDI receiver loop: the flag block plus `u_time` and
`u_time_takeover`, which knob 0 mutates in place. -/
structure MidiAcc where
  flags : Flags
  u_time : ℚ
  u_time_takeover : Bool
  deriving DecidableEq, Repr

/-- One step of the MIDI receiver loop (`main.rs` lines 143–170):
pad `p ≤ 9` requests preset `p`; pad `16 ≤ p ≤ 25` requests beat-preset
`p - 16`; pads 10/11/12/13 set clear/regenerate/randomize/randomize-beat;
knob 0 sets `u_time := value / 127` and enters manual-time takeover; all
other messages do nothing. -/
def stepMidi (acc : MidiAcc) (m : Mpd218Message) : MidiAcc :=
  match m with
  | .PadPressed pad _ _ =>
    if pad ≤ 9 then
      { acc with flags := { acc.flags with load_preset_number := (pad : ℤ) } }
    else if 16 ≤ pad ∧ pad ≤ 25 then
      { acc with flags :=
          { acc.flags with load_beat_preset_number := ((pad - 16 : ℕ) : ℤ) } }
    else if pad = 10 then
      { acc with flags := { acc.flags with clear_textures := true } }
    else if pad = 11 then
      { acc with flags := { acc.flags with regenerate_points := true } }
    else if pad = 12 then
      { acc with flags := { acc.flags with randomize_preset := true } }
    else if pad = 13 then
      { acc with flags := { acc.flags with randomize_beat_preset := true } }
    else acc
  | .KnobChanged knob value _ =>
    if knob = 0 then
      { acc with u_time := (value : ℚ) / 127, u_time_takeover := true }
    else acc
  | .OtherMessage => acc

/-- The full per-tick mutable state captured by the tick closure in
`main.rs`. -/
structure TickState where
  slime : SlimeMould
  u_time : ℚ
  u_time_takeover : Bool
  beat_start_time : ℚ
  beat_preset : Preset
  non_beat_preset : Preset
  fullscreen : Bool
  screenshots : ℕ
  deriving DecidableEq, Repr

/-- Draining the beat channel (`main.rs` lines 83–87): `got_beat` is set for
every pending notification; the result is `true` iff at least one beat was
pending. -/
def drainBeats (beats : List ℚ) : Bool :=
  beats.foldl (fun _ _ => true) false

/-- Advancing simulated time (`main.rs` lines 94–96): `u_time += 0.02` unless
manual-time takeover is active. -/
def advanceTime (u : ℚ) (takeover : Bool) : ℚ :=
  if takeover then u else u + 1 / 50

/-- Applying the per-tick flags (`main.rs` lines 172–263), in source order:
randomize beat preset; randomize preset (clears takeover); regenerate points;
clear textures; load beat preset; load preset (also resets points, clears
takeover); save preset; then the beat-sync logic (on a beat, snapshot
`non_beat_preset`, record `beat_start_time`, and start a 0.2-duration
transition to the beat preset; otherwise, once `beat_start_time > 0` and more
than 0.2 has elapsed, start a 0.1-duration return transition and set
`beat_start_time := -1`); then screenshot, fullscreen toggle, and stop. -/
def applyFlags (s : TickState) (slime0 : SlimeMould) (u : ℚ) (tk : Bool)
    (f : Flags) (got_beat : Bool) (randPreset randBeatPreset : Preset)
    (a : Action) : Action × TickState :=
  let bp0 := if f.randomize_beat_preset then randBeatPreset else s.beat_preset
  let slime1 :=
    if f.randomize_preset then
      slime0.transition_preset (slime0.get_preset u) randPreset u 1
    else slime0
  let tk1 := if f.randomize_preset then false else tk
  let slime2 := if f.regenerate_points then slime1.reset_points else slime1
  let slime3 := if f.clear_textures then slime2.clear else slime2
  let bp1 :=
    if 0 ≤ f.load_beat_preset_number then
      Preset.new f.load_beat_preset_number.toNat
    else bp0
  let slime4 :=
    if 0 ≤ f.load_preset_number then
      (slime3.transition_preset (slime3.get_preset u)
        (Preset.new f.load_preset_number.toNat) u 1).reset_points
    else slime3
  let tk2 := if 0 ≤ f.load_preset_number then false else tk1
  let slime5 := if f.save_preset then slime4.save_preset else slime4
  let nbp := if got_beat then slime5.get_preset u else s.non_beat_preset
  let slime6 :=
    if got_beat then slime5.transition_preset nbp bp1 u (1 / 5)
    else if s.beat_start_time > 0 ∧ u - s.beat_start_time > 1 / 5 then
      slime5.transition_preset bp1 s.non_beat_preset u (1 / 10)
    else slime5
  let bst :=
    if got_beat then u
    else if s.beat_start_time > 0 ∧ u - s.beat_start_time > 1 / 5 then (-1 : ℚ)
    else s.beat_start_time
  let shots := if f.backspace_pressed then s.screenshots + 1 else s.screenshots
  let fs := if f.toggle_fullscreen then !s.fullscreen else s.fullscreen
  let a1 := if f.stop_event_loop then Action.Stop else a
  (a1, ⟨slime6, u, tk2, bst, bp1, nbp, fs, shots⟩)

/-- One invocation of the tick closure passed to `start_loop`
(`main.rs` lines 80–264): drain the beat channel, draw (no state change),
advance `u_time` (unless takeover), run `update()`, fold the window events
into the flags and action, fold the MIDI messages into the flags /
`u_time` / takeover, then apply the flags. The presets produced by the two
`rand::random()` calls are passed in as `randPreset` and `randBeatPreset`. -/
def tick (s : TickState) (beats : List ℚ) (events : List Ev)
    (midi : List Mpd218Message) (randPreset randBeatPreset : Preset) :
    Action × TickState :=
  let got_beat := drainBeats beats
  let u0 := advanceTime s.u_time s.u_time_takeover
  let slime0 := s.slime.update
  let fa := processWindowEvents events initFlags Action.Continue
  let acc := midi.foldl stepMidi ⟨fa.1, u0, s.u_time_takeover⟩
  applyFlags s slime0 acc.u_time acc.u_time_takeover acc.flags got_beat
    randPreset randBeatPreset fa.2

/-- A default preset used to feed the unused `rand::random()` arguments of
quiet (event-free) ticks. -/
def pDefault : Preset := ⟨0⟩

/-- `k` successive quiet ticks: no beats, no window events, no MIDI. -/
def tickN (s : TickState) : ℕ → TickState
  | 0 => s
  | n + 1 => (tick (tickN s n) [] [] [] pDefault pDefault).2

/-- The frame delay scheduled by `start_loop` (`main.rs` line 296):
`Duration::from_nanos(16666667) / 2`, in nanoseconds (Rust `Duration`
division truncates to whole nanoseconds). -/
def frameDelayNanos : ℕ := 16666667 / 2

/-- The scheduled interval between successive tick-callback invocations, in
seconds. -/
def scheduledIntervalSeconds : ℚ := (frameDelayNanos : ℚ) / 1000000000

/-- The accumulator produced by one tick's event processing: the flag block
and the `u_time` / takeover values after the window-event fold and the MIDI
fold, starting from the freshly advanced time. Definitionally equal to the
intermediate state inside `tick`. -/
def tickAcc (s : TickState) (events : List Ev) (midi : List Mpd218Message) :
    MidiAcc :=
  midi.foldl stepMidi
    ⟨(processWindowEvents events initFlags Action.Continue).1,
      advanceTime s.u_time s.u_time_takeover, s.u_time_takeover⟩

/-- The state after a tick that carries exactly one beat notification and no
other input. -/
def afterBeat (s : TickState) (b : ℚ) : TickState :=
  (tick s [b] [] [] pDefault pDefault).2

/-- Does a MIDI message target knob 0 (the `u_time` takeover knob)? -/
def isKnob0 : Mpd218Message → Bool
  | .KnobChanged k _ _ => k == 0
  | _ => false

section HelperLemmas

lemma foldl_const_true (l : List ℚ) :
    l.foldl (fun _ _ => true) true = true := by
  induction l with
  | nil => rfl
  | cons x xs ih => simpa using ih

lemma drainBeats_of_ne_nil (beats : List ℚ) (h : beats ≠ []) :
    drainBeats beats = true := by
  cases beats with
  | nil => exact absurd rfl h
  | cons b bs => simpa [drainBeats] using foldl_const_true bs

lemma tick_snd_u_time (s : TickState) (beats : List ℚ) (events : List Ev)
    (midi : List Mpd218Message) (r1 r2 : Preset) :
    (tick s beats events midi r1 r2).2.u_time = (tickAcc s events midi).u_time :=
  rfl

lemma tick_snd_takeover (s : TickState) (beats : List ℚ) (events : List Ev)
    (midi : List Mpd218Message) (r1 r2 : Preset) :
    (tick s beats events midi r1 r2).2.u_time_takeover =
      (if 0 ≤ (tickAcc s events midi).flags.load_preset_number then false
       else if (tickAcc s events midi).flags.randomize_preset then false
       else (tickAcc s events midi).u_time_takeover) :=
  rfl

lemma stepMidi_time (acc : MidiAcc) (m : Mpd218Message)
    (h : isKnob0 m = false) :
    (stepMidi acc m).u_time = acc.u_time ∧
      (stepMidi acc m).u_time_takeover = acc.u_time_takeover := by
  cases m with
  | PadPressed p v e =>
    simp only [stepMidi]
    split_ifs <;> exact ⟨rfl, rfl⟩
  | KnobChanged k v e =>
    simp only [isKnob0, beq_eq_false_iff_ne, ne_eq] at h
    simp only [stepMidi]
    rw [if_neg h]
    exact ⟨rfl, rfl⟩
  | OtherMessage => exact ⟨rfl, rfl⟩

lemma foldl_stepMidi_time (midi : List Mpd218Message) (acc : MidiAcc)
    (h : ∀ m ∈ midi, isKnob0 m = false) :
    (midi.foldl stepMidi acc).u_time = acc.u_time ∧
      (midi.foldl stepMidi acc).u_time_takeover = acc.u_time_takeover := by
  induction midi generalizing acc with
  | nil => exact ⟨rfl, rfl⟩
  | cons m ms ih =>
    have h1 := stepMidi_time acc m (h m (List.mem_cons_self m ms))
    have h2 := ih (stepMidi acc m) fun x hx => h x (List.mem_cons_of_mem m hx)
    exact ⟨h2.1.trans h1.1, h2.2.trans h1.2⟩

lemma tickAcc_time (s : TickState) (events : List Ev)
    (midi : List Mpd218Message) (h : ∀ m ∈ midi, isKnob0 m = false) :
    (tickAcc s events midi).u_time = advanceTime s.u_time s.u_time_takeover ∧
      (tickAcc s events midi).u_time_takeover = s.u_time_takeover :=
  foldl_stepMidi_time midi _ h

end HelperLemmas

/-- **C6.** For every tick and every number `N ≥ 1` of beat notifications
pending at the start of that tick, the tick's result (the full state and the
returned action) is identical to the result with exactly one pending beat
notification: the beat loop only ever sets the `got_beat` flag, so all
pending beats collapse to a single re-trigger. -/
theorem beats_collapse (s : TickState) (beats : List ℚ) (events : List Ev)
    (midi : List Mpd218Message) (r1 r2 : Preset) (b : ℚ)
    (h : 1 ≤ beats.length) :
    tick s beats events midi r1 r2 = tick s [b] events midi r1 r2 := by
  have hne : beats ≠ [] := by
    cases beats with
    | nil => simp at h
    | cons x xs => exact List.cons_ne_nil x xs
  unfold tick
  rw [drainBeats_of_ne_nil beats hne, drainBeats_of_ne_nil [b] (List.cons_ne_nil b [])]

/-- Witness for `beats_collapse` at a concrete state and a three-beat
queue. -/
theorem beats_collapse_witness :
    tick ⟨⟨⟨⟨0⟩, ⟨1⟩, 0, 1⟩, 0, 0, 0, 0⟩, 10, false, -1, ⟨1⟩, ⟨0⟩, false, 0⟩
        [120, 121, 122] [] [] pDefault pDefault =
      tick ⟨⟨⟨⟨0⟩, ⟨1⟩, 0, 1⟩, 0, 0, 0, 0⟩, 10, false, -1, ⟨1⟩, ⟨0⟩, false, 0⟩
        [0] [] [] pDefault pDefault :=
  beats_collapse _ [120, 121, 122] [] [] pDefault pDefault 0 (by decide)

/-- **C5.** In every tick in which manual-time takeover is not active and no
knob-0 message is processed, `u_time` advances by exactly `0.02`, hence is
strictly greater after the tick than before. -/
theorem u_time_auto_advances (s : TickState) (beats : List ℚ)
    (events : List Ev) (midi : List Mpd218Message) (r1 r2 : Preset)
    (hT : s.u_time_takeover = false)
    (hK : ∀ m ∈ midi, isKnob0 m = false) :
    (tick s beats events midi r1 r2).2.u_time = s.u_time + 1 / 50 ∧
      s.u_time < (tick s beats events midi r1 r2).2.u_time := by
  have h1 := (tickAcc_time s events midi hK).1
  rw [tick_snd_u_time, h1, advanceTime, hT]
  refine ⟨by simp, by simp⟩

/-- Witness for `u_time_auto_advances` on a concrete state with a pad
message in the queue. -/
theorem u_time_auto_advances_witness :
    (tick ⟨⟨⟨⟨0⟩, ⟨1⟩, 0, 1⟩, 0, 0, 0, 0⟩, 10, false, -1, ⟨1⟩, ⟨0⟩, false, 0⟩
        [] [] [.PadPressed 3 10 0] pDefault pDefault).2.u_time = 10 + 1 / 50 ∧
      (10 : ℚ) <
        (tick ⟨⟨⟨⟨0⟩, ⟨1⟩, 0, 1⟩, 0, 0, 0, 0⟩, 10, false, -1, ⟨1⟩, ⟨0⟩, false, 0⟩
          [] [] [.PadPressed 3 10 0] pDefault pDefault).2.u_time :=
  u_time_auto_advances _ [] [] [.PadPressed 3 10 0] pDefault pDefault rfl
    (by decide)

/-- The pad-dispatch table transcribed from the claim: pad `p ≤ 9` requests
loading preset `p`; pad `16 ≤ p ≤ 25` selects beat-preset `p − 16`; pads
10, 11, 12, 13 set clear-textures, regenerate-points, randomize-preset and
randomize-beat-preset; every other pad leaves the flags unchanged. -/
def padFlagsSpec (p : ℕ) (f : Flags) : Flags :=
  if p ≤ 9 then { f with load_preset_number := (p : ℤ) }
  else if 16 ≤ p ∧ p ≤ 25 then
    { f with load_beat_preset_number := ((p - 16 : ℕ) : ℤ) }
  else if p = 10 then { f with clear_textures := true }
  else if p = 11 then { f with regenerate_points := true }
  else if p = 12 then { f with randomize_preset := true }
  else if p = 13 then { f with randomize_beat_preset := true }
  else f

/-- **C4.** Every pad-pressed event is dispatched exactly as the claim's
table `padFlagsSpec` states, for every pad index and velocity, and touches
nothing but the flag block (`u_time` and the takeover mode are left
alone). -/
theorem pad_dispatch (p v e : ℕ) (acc : MidiAcc) :
    stepMidi acc (.PadPressed p v e) =
      ⟨padFlagsSpec p acc.flags, acc.u_time, acc.u_time_takeover⟩ := by
  simp only [stepMidi, padFlagsSpec]
  split_ifs <;> rfl

/-- **C8 counterexample.** The interval `start_loop` schedules between
successive callback invocations is `Duration::from_nanos(16666667) / 2`,
which is not one sixtieth of a second. -/
theorem frame_interval_not_sixtieth : scheduledIntervalSeconds ≠ 1 / 60 := by
  norm_num [scheduledIntervalSeconds, frameDelayNanos]

/-- **C8 (amended).** The scheduled interval between successive callback
invocations equals `16666667 / 2 = 8333333` nanoseconds — half of the 60 Hz
frame time, truncated to whole nanoseconds — i.e. strictly between 1/121 and
1/120 of a second, a target cadence of ~120 callbacks per second. -/
theorem frame_interval_half_sixtieth :
    frameDelayNanos = 8333333 ∧
      scheduledIntervalSeconds = 8333333 / 1000000000 ∧
      1 / 121 < scheduledIntervalSeconds ∧
      scheduledIntervalSeconds < 1 / 120 := by
  refine ⟨rfl, rfl, by norm_num [scheduledIntervalSeconds, frameDelayNanos],
    by norm_num [scheduledIntervalSeconds, frameDelayNanos]⟩

/-- **C3.** A knob-changed event with knob index 0 sets `u_time` to
`value / 127` and enters manual-time takeover (a); while takeover is active,
any tick processing no knob-0 message and raising neither the
randomize-preset flag nor a preset load leaves `u_time` untouched (b); a tick
that does raise randomize-preset or a preset load clears the takeover flag
(c); and with the flag cleared, a tick without knob-0 messages auto-advances
`u_time` by `0.02` again (d). -/
theorem manual_time_takeover (s : TickState) (v e : ℕ) (beats : List ℚ)
    (events : List Ev) (midi : List Mpd218Message) (r1 r2 : Preset) :
    ((tick s beats [] [.KnobChanged 0 v e] r1 r2).2.u_time = (v : ℚ) / 127 ∧
      (tick s beats [] [.KnobChanged 0 v e] r1 r2).2.u_time_takeover = true) ∧
    (s.u_time_takeover = true →
      (∀ m ∈ midi, isKnob0 m = false) →
      (tickAcc s events midi).flags.randomize_preset = false →
      (tickAcc s events midi).flags.load_preset_number < 0 →
      (tick s beats events midi r1 r2).2.u_time = s.u_time ∧
        (tick s beats events midi r1 r2).2.u_time_takeover = true) ∧
    ((tickAcc s events midi).flags.randomize_preset = true ∨
        0 ≤ (tickAcc s events midi).flags.load_preset_number →
      (tick s beats events midi r1 r2).2.u_time_takeover = false) ∧
    (s.u_time_takeover = false →
      (∀ m ∈ midi, isKnob0 m = false) →
      (tick s beats events midi r1 r2).2.u_time = s.u_time + 1 / 50) := by
  refine ⟨⟨rfl, rfl⟩, ?_, ?_, ?_⟩
  · intro hT hK hR hL
    have ha := tickAcc_time s events midi hK
    constructor
    · rw [tick_snd_u_time, ha.1, hT]
      simp [advanceTime]
    · rw [tick_snd_takeover, if_neg (by omega), ha.2, hT]
      simp [hR]
  · intro h
    rw [tick_snd_takeover]
    by_cases hl : 0 ≤ (tickAcc s events midi).flags.load_preset_number
    · simp [hl]
    · rcases h with h | h
      · simp [hl, h]
      · exact absurd h hl
  · intro hT hK
    have ha := tickAcc_time s events midi hK
    rw [tick_snd_u_time, ha.1, hT]
    simp [advanceTime]

/-- Witness for `manual_time_takeover`: at a concrete takeover-mode state
with a pending pad-14 message (which is ignored), `u_time` stays put and the
takeover flag survives the tick. -/
theorem manual_time_takeover_witness :
    (tick ⟨⟨⟨⟨0⟩, ⟨1⟩, 0, 1⟩, 0, 0, 0, 0⟩, 10, true, -1, ⟨1⟩, ⟨0⟩, false, 0⟩
        [] [] [.PadPressed 14 1 0] pDefault pDefault).2.u_time = 10 ∧
      (tick ⟨⟨⟨⟨0⟩, ⟨1⟩, 0, 1⟩, 0, 0, 0, 0⟩, 10, true, -1, ⟨1⟩, ⟨0⟩, false, 0⟩
        [] [] [.PadPressed 14 1 0] pDefault pDefault).2.u_time_takeover = true :=
  (manual_time_takeover _ 0 0 [] [] [.PadPressed 14 1 0] pDefault
      pDefault).2.1 rfl (by decide) (by decide) (by decide)

/-- Is this optional virtual keycode one of the seven the keyboard handler
reacts to? -/
def handledKeycode : Option VirtualKeyCode → Bool
  | some .Escape => true
  | some .Return => true
  | some .R => true
  | some .P => true
  | some .C => true
  | some .S => true
  | some .Back => true
  | _ => false

/-- The window events the claim calls unrecognized: a pressed-key event (for
the primary window) whose virtual keycode is none of the handled seven and
whose scancode lies outside `[2, 11]`. -/
def inertEv : Ev → Bool
  | .WindowEvent same (.KeyboardInput i) =>
    same && i.pressed && !handledKeycode i.virtual_keycode &&
      !(decide (2 ≤ i.scancode) && decide (i.scancode ≤ 11))
  | _ => false

/-- The MIDI messages the claim calls unrecognized: pad indices 14, 15 or
above 25, and knob indices other than 0. -/
def inertMidi : Mpd218Message → Bool
  | .PadPressed p _ _ => p == 14 || p == 15 || decide (25 < p)
  | .KnobChanged k _ _ => !(k == 0)
  | .OtherMessage => false

lemma applyKeyFlags_inert (f : Flags) (i : KeyboardInput)
    (hk : handledKeycode i.virtual_keycode = false)
    (hs : ¬(2 ≤ i.scancode ∧ i.scancode ≤ 11)) :
    applyKeyFlags f i = f := by
  obtain ⟨pr, vk, sc⟩ := i
  cases pr with
  | false => rfl
  | true =>
    cases vk with
    | none => simp [applyKeyFlags, hs]
    | some k =>
      cases k <;> simp_all [applyKeyFlags, handledKeycode]

lemma stepWindowEvent_inert (fa : Flags × Action) (e : Ev)
    (he : inertEv e = true) : stepWindowEvent fa e = fa := by
  cases e with
  | OtherEvent => simp [inertEv] at he
  | WindowEvent same ev =>
    cases ev with
    | CloseRequested => simp [inertEv] at he
    | OtherWindowEvent => simp [inertEv] at he
    | KeyboardInput i =>
      simp only [inertEv, Bool.and_eq_true, Bool.not_eq_true'] at he
      obtain ⟨⟨⟨hsame, -⟩, hkc⟩, hsc⟩ := he
      have hs : ¬(2 ≤ i.scancode ∧ i.scancode ≤ 11) := by
        simpa using hsc
      subst hsame
      simp [stepWindowEvent, applyKeyFlags_inert fa.1 i hkc hs]

lemma processWindowEvents_inert (events : List Ev) (f : Flags) (a : Action)
    (h : ∀ e ∈ events, inertEv e = true) :
    processWindowEvents events f a = (f, a) := by
  induction events with
  | nil => rfl
  | cons e es ih =>
    unfold processWindowEvents at *
    rw [List.foldl_cons,
      stepWindowEvent_inert (f, a) e (h e (List.mem_cons_self e es))]
    exact ih fun x hx => h x (List.mem_cons_of_mem e hx)

lemma stepMidi_inert (acc : MidiAcc) (m : Mpd218Message)
    (h : inertMidi m = true) : stepMidi acc m = acc := by
  cases m with
  | PadPressed p v e =>
    have hp : (p = 14 ∨ p = 15) ∨ 25 < p := by simpa [inertMidi] using h
    simp only [stepMidi]
    split_ifs <;> first | rfl | (exfalso; omega)
  | KnobChanged k v e =>
    have hk : ¬(k = 0) := by simpa [inertMidi] using h
    simp only [stepMidi]
    rw [if_neg hk]
  | OtherMessage => rfl

lemma foldl_stepMidi_inert (midi : List Mpd218Message) (acc : MidiAcc)
    (h : ∀ m ∈ midi, inertMidi m = true) :
    midi.foldl stepMidi acc = acc := by
  induction midi generalizing acc with
  | nil => rfl
  | cons m ms ih =>
    rw [List.foldl_cons, stepMidi_inert acc m (h m (List.mem_cons_self m ms))]
    exact ih acc fun x hx => h x (List.mem_cons_of_mem m hx)

/-- **C7.** Unrecognized inputs are silently ignored: a tick whose window
events are all pressed-key events with unhandled keycodes and scancodes
outside `[2, 11]`, and whose MIDI messages all have pad index 14, 15 or
above 25 or knob index other than 0, produces exactly the same action and
state as the same tick with no input at all — nothing is queued and no error
path exists. -/
theorem unrecognized_inputs_no_op (s : TickState) (beats : List ℚ)
    (events : List Ev) (midi : List Mpd218Message) (r1 r2 : Preset)
    (hE : ∀ e ∈ events, inertEv e = true)
    (hM : ∀ m ∈ midi, inertMidi m = true) :
    tick s beats events midi r1 r2 = tick s beats [] [] r1 r2 := by
  simp only [tick]
  rw [processWindowEvents_inert events initFlags Action.Continue hE]
  rw [foldl_stepMidi_inert midi _ hM]
  rfl

/-- Witness for `unrecognized_inputs_no_op`: an unknown key with scancode 30,
pads 14 and 99, and knob 3 together leave the tick unchanged. -/
theorem unrecognized_inputs_no_op_witness :
    tick ⟨⟨⟨⟨0⟩, ⟨1⟩, 0, 1⟩, 0, 0, 0, 0⟩, 10, false, -1, ⟨1⟩, ⟨0⟩, false, 0⟩
        [] [.WindowEvent true (.KeyboardInput ⟨true, some (.OtherKey 42), 30⟩)]
        [.PadPressed 14 1 0, .PadPressed 99 0 0, .KnobChanged 3 50 0]
        pDefault pDefault =
      tick ⟨⟨⟨⟨0⟩, ⟨1⟩, 0, 1⟩, 0, 0, 0, 0⟩, 10, false, -1, ⟨1⟩, ⟨0⟩, false, 0⟩
        [] [] [] pDefault pDefault :=
  unrecognized_inputs_no_op _ []
    [.WindowEvent true (.KeyboardInput ⟨true, some (.OtherKey 42), 30⟩)]
    [.PadPressed 14 1 0, .PadPressed 99 0 0, .KnobChanged 3 50 0]
    pDefault pDefault (by decide) (by decide)

section BeatLemmas

lemma update_transition (sm : SlimeMould) : sm.update.transition = sm.transition :=
  rfl

lemma update_get_preset (sm : SlimeMould) (t : ℚ) :
    sm.update.get_preset t = sm.get_preset t :=
  rfl

lemma afterBeat_u_time (x : TickState) (b : ℚ) :
    (afterBeat x b).u_time = advanceTime x.u_time x.u_time_takeover :=
  rfl

lemma afterBeat_takeover (x : TickState) (b : ℚ) :
    (afterBeat x b).u_time_takeover = x.u_time_takeover :=
  rfl

lemma afterBeat_beat_start (x : TickState) (b : ℚ) :
    (afterBeat x b).beat_start_time = advanceTime x.u_time x.u_time_takeover :=
  rfl

lemma afterBeat_beat_preset (x : TickState) (b : ℚ) :
    (afterBeat x b).beat_preset = x.beat_preset :=
  rfl

lemma afterBeat_non_beat (x : TickState) (b : ℚ) :
    (afterBeat x b).non_beat_preset =
      (x.slime.update).get_preset (advanceTime x.u_time x.u_time_takeover) :=
  rfl

lemma afterBeat_transition (x : TickState) (b : ℚ) :
    (afterBeat x b).slime.transition =
      ⟨(x.slime.update).get_preset (advanceTime x.u_time x.u_time_takeover),
        x.beat_preset, advanceTime x.u_time x.u_time_takeover, 1 / 5⟩ :=
  rfl

/-- A quiet tick (no beats, no window events, no MIDI) only advances time,
runs `update()`, and — exactly when `beat_start_time > 0` and more than `0.2`
of simulated time has passed since it — installs the return transition and
resets `beat_start_time` to the `-1` sentinel. -/
lemma tick_quiet (s : TickState) :
    (tick s [] [] [] pDefault pDefault).2 =
      if s.beat_start_time > 0 ∧
          advanceTime s.u_time s.u_time_takeover - s.beat_start_time > 1 / 5 then
        ⟨(s.slime.update).transition_preset s.beat_preset s.non_beat_preset
            (advanceTime s.u_time s.u_time_takeover) (1 / 10),
          advanceTime s.u_time s.u_time_takeover, s.u_time_takeover, -1,
          s.beat_preset, s.non_beat_preset, s.fullscreen, s.screenshots⟩
      else
        ⟨s.slime.update, advanceTime s.u_time s.u_time_takeover,
          s.u_time_takeover, s.beat_start_time, s.beat_preset,
          s.non_beat_preset, s.fullscreen, s.screenshots⟩ := by
  have h0 : (tick s [] [] [] pDefault pDefault).2 =
      (applyFlags s s.slime.update (advanceTime s.u_time s.u_time_takeover)
        s.u_time_takeover initFlags false pDefault pDefault Action.Continue).2 :=
    rfl
  rw [h0]
  simp [applyFlags, initFlags]
  split_ifs <;> rfl

/-- Running `k ≤ 10` quiet ticks from a state whose `beat_start_time` equals
its `u_time` (a beat has just been recorded) and whose time is advancing
automatically stays inside the 0.2 hold window: the installed transition and
both preset slots are untouched, and time grows by `k/50`. -/
lemma tickN_hold (s : TickState) (hT : s.u_time_takeover = false)
    (hB : s.beat_start_time = s.u_time) :
    ∀ k : ℕ, k ≤ 10 →
      (tickN s k).u_time = s.u_time + (k : ℚ) / 50 ∧
      (tickN s k).u_time_takeover = false ∧
      (tickN s k).beat_start_time = s.u_time ∧
      (tickN s k).slime.transition = s.slime.transition ∧
      (tickN s k).beat_preset = s.beat_preset ∧
      (tickN s k).non_beat_preset = s.non_beat_preset ∧
      (tickN s k).slime.pointsGen = s.slime.pointsGen := by
  intro k
  induction k with
  | zero => intro _; refine ⟨by simp [tickN], rfl.trans hT, hB, rfl, rfl, rfl, rfl⟩
  | succ n ih =>
    intro hk
    obtain ⟨hu, htk, hbst, htr, hbp, hnbp, hpg⟩ := ih (by omega)
    have hnq : ((n : ℚ) : ℚ) ≤ 9 := by exact_mod_cast (by omega : n ≤ 9)
    have step : tickN s (n + 1) = (tick (tickN s n) [] [] [] pDefault pDefault).2 :=
      rfl
    rw [step, tick_quiet (tickN s n)]
    have hadv : advanceTime (tickN s n).u_time (tickN s n).u_time_takeover =
        s.u_time + ((n : ℚ) + 1) / 50 := by
      rw [htk, hu, advanceTime]
      simp only [if_neg Bool.false_ne_true]
      ring
    have hcond : ¬((tickN s n).beat_start_time > 0 ∧
        advanceTime (tickN s n).u_time (tickN s n).u_time_takeover -
          (tickN s n).beat_start_time > 1 / 5) := by
      rintro ⟨-, h2⟩
      rw [hadv, hbst] at h2
      have : ((n : ℚ) + 1) / 50 > 1 / 5 := by linarith
      have : ((n : ℚ) + 1) / 50 ≤ 1 / 5 := by
        rw [div_le_div_iff₀ (by norm_num) (by norm_num)]
        linarith
      linarith
    rw [if_neg hcond]
    refine ⟨?_, htk, hbst, htr, hbp, hnbp, hpg⟩
    rw [hadv]
    push_cast
    ring

/-- Projections of a quiet tick in which the hold-window guard fires: the
return transition toward `non_beat_preset` is installed with duration `0.1`
and `beat_start_time` is reset to the `-1` sentinel. -/
lemma tick_quiet_fire (s : TickState)
    (h : s.beat_start_time > 0 ∧
      advanceTime s.u_time s.u_time_takeover - s.beat_start_time > 1 / 5) :
    (tick s [] [] [] pDefault pDefault).2.slime.transition =
      ⟨s.beat_preset, s.non_beat_preset,
        advanceTime s.u_time s.u_time_takeover, 1 / 10⟩ ∧
    (tick s [] [] [] pDefault pDefault).2.beat_start_time = -1 ∧
    (tick s [] [] [] pDefault pDefault).2.u_time =
      advanceTime s.u_time s.u_time_takeover := by
  rw [tick_quiet, if_pos h]
  exact ⟨rfl, rfl, rfl⟩

end BeatLemmas

/-- **C1.** Starting from automatic time at `u_time = 9.98`, a single beat is
processed at simulated time `10.0`: that tick installs a transition from the
current effective preset toward `beat_preset` starting at `10.0` with
duration `0.2` and records `beat_start_time = 10.0`; over the next ten quiet
ticks (simulated time up to `10.2`) neither the installed transition nor
`beat_start_time` changes; and the eleventh quiet tick — the first whose
simulated time (`10.22`) exceeds `10.2` — installs the return transition
toward the pre-beat preset with duration `0.1` and resets `beat_start_time`
to the `-1` sentinel. -/
theorem beat_excursion_timeline (s : TickState) (b : ℚ)
    (hU : s.u_time = 499 / 50) (hT : s.u_time_takeover = false) :
    (afterBeat s b).u_time = 10 ∧
    (afterBeat s b).beat_start_time = 10 ∧
    (afterBeat s b).slime.transition =
      ⟨s.slime.get_preset 10, s.beat_preset, 10, 1 / 5⟩ ∧
    (afterBeat s b).non_beat_preset = s.slime.get_preset 10 ∧
    (∀ k : ℕ, 1 ≤ k → k ≤ 10 →
      (tickN (afterBeat s b) k).slime.transition =
        (afterBeat s b).slime.transition ∧
      (tickN (afterBeat s b) k).beat_start_time = 10 ∧
      (tickN (afterBeat s b) k).u_time ≤ 51 / 5) ∧
    (51 / 5 : ℚ) < (tickN (afterBeat s b) 11).u_time ∧
    (tickN (afterBeat s b) 11).slime.transition =
      ⟨s.beat_preset, s.slime.get_preset 10, 511 / 50, 1 / 10⟩ ∧
    (tickN (afterBeat s b) 11).beat_start_time = -1 := by
  have hadv : advanceTime s.u_time s.u_time_takeover = 10 := by
    rw [hU, hT, advanceTime]
    norm_num
  have hu1 : (afterBeat s b).u_time = 10 := by rw [afterBeat_u_time, hadv]
  have hb1 : (afterBeat s b).beat_start_time = 10 := by
    rw [afterBeat_beat_start, hadv]
  have ht1 : (afterBeat s b).slime.transition =
      ⟨s.slime.get_preset 10, s.beat_preset, 10, 1 / 5⟩ := by
    rw [afterBeat_transition, hadv, update_get_preset]
  have hn1 : (afterBeat s b).non_beat_preset = s.slime.get_preset 10 := by
    rw [afterBeat_non_beat, hadv, update_get_preset]
  have htk1 : (afterBeat s b).u_time_takeover = false := by
    rw [afterBeat_takeover, hT]
  have hbeq : (afterBeat s b).beat_start_time = (afterBeat s b).u_time := by
    rw [hu1, hb1]
  have hold := tickN_hold (afterBeat s b) htk1 hbeq
  obtain ⟨hku, hktk, hkb, hktr, hkbp, hknbp, -⟩ := hold 10 (by omega)
  have h11 : tickN (afterBeat s b) 11 =
      (tick (tickN (afterBeat s b) 10) [] [] [] pDefault pDefault).2 := rfl
  have hadv10 : advanceTime (tickN (afterBeat s b) 10).u_time
      (tickN (afterBeat s b) 10).u_time_takeover = 511 / 50 := by
    rw [hktk, hku, hu1, advanceTime]
    norm_num
  have hcond : (tickN (afterBeat s b) 10).beat_start_time > 0 ∧
      advanceTime (tickN (afterBeat s b) 10).u_time
          (tickN (afterBeat s b) 10).u_time_takeover -
        (tickN (afterBeat s b) 10).beat_start_time > 1 / 5 := by
    rw [hadv10, hkb, hu1]
    norm_num
  obtain ⟨e1, e2, e3⟩ := tick_quiet_fire (tickN (afterBeat s b) 10) hcond
  refine ⟨hu1, hb1, ht1, hn1, ?_, ?_, ?_, ?_⟩
  · intro k hk1 hk10
    obtain ⟨hju, -, hjb, hjtr, -, -, -⟩ := hold k hk10
    refine ⟨hjtr, by rw [hjb, hu1], ?_⟩
    rw [hju, hu1]
    have : (k : ℚ) ≤ 10 := by exact_mod_cast hk10
    linarith
  · rw [h11, e3, hadv10]
    norm_num
  · rw [h11, e1, hadv10, hkbp, afterBeat_beat_preset, hknbp, hn1]
  · rw [h11, e2]

/-- Witness for `beat_excursion_timeline` at a fully concrete start state:
after the beat tick, time and `beat_start_time` sit at `10`, and after the
eleven quiet ticks the return transition toward the pre-beat preset is
installed and the excursion is marked inactive. -/
theorem beat_excursion_timeline_witness :
    (afterBeat ⟨⟨⟨⟨0⟩, ⟨0⟩, 0, 1⟩, 0, 0, 0, 0⟩, 499 / 50, false, -1, ⟨1⟩, ⟨0⟩,
        false, 0⟩ 120).u_time = 10 ∧
      ((51 / 5 : ℚ) <
          (tickN (afterBeat ⟨⟨⟨⟨0⟩, ⟨0⟩, 0, 1⟩, 0, 0, 0, 0⟩, 499 / 50, false,
            -1, ⟨1⟩, ⟨0⟩, false, 0⟩ 120) 11).u_time ∧
        (tickN (afterBeat ⟨⟨⟨⟨0⟩, ⟨0⟩, 0, 1⟩, 0, 0, 0, 0⟩, 499 / 50, false, -1,
            ⟨1⟩, ⟨0⟩, false, 0⟩ 120) 11).slime.transition =
          ⟨⟨1⟩, (⟨⟨⟨⟨0⟩, ⟨0⟩, 0, 1⟩, 0, 0, 0, 0⟩, 499 / 50, false, -1, ⟨1⟩, ⟨0⟩,
            false, 0⟩ : TickState).slime.get_preset 10, 511 / 50, 1 / 10⟩ ∧
        (tickN (afterBeat ⟨⟨⟨⟨0⟩, ⟨0⟩, 0, 1⟩, 0, 0, 0, 0⟩, 499 / 50, false, -1,
            ⟨1⟩, ⟨0⟩, false, 0⟩ 120) 11).beat_start_time = -1) :=
  ⟨(beat_excursion_timeline _ 120 rfl rfl).1,
    (beat_excursion_timeline _ 120 rfl rfl).2.2.2.2.2⟩

lemma clamp01_of_mem (x : ℚ) (h0 : 0 ≤ x) (h1 : x ≤ 1) : clamp01 x = x := by
  rw [clamp01, min_eq_right h1, max_eq_right h0]

/-- The concrete start state of the C2 counterexample run: the engine is
settled at preset `⟨0⟩` (degenerate transition), the beat preset is `⟨1⟩`,
time is automatic at `9.98`, and no excursion is active. -/
def cexStart : TickState :=
  ⟨⟨⟨⟨0⟩, ⟨0⟩, 0, 1⟩, 0, 0, 0, 0⟩, 499 / 50, false, -1, ⟨1⟩, ⟨0⟩, false, 0⟩

/-- The counterexample run after its first beat, processed at time `10`. -/
def cexAfterFirst : TickState := afterBeat cexStart 120

/-- The counterexample run after four further quiet ticks and a re-triggering
second beat, processed at time `10.1` — in the middle of the fast transition
installed by the first beat. -/
def cexAfterSecond : TickState := afterBeat (tickN cexAfterFirst 4) 120

/-- The counterexample run after eleven further quiet ticks, once the hold
window has elapsed and the return transition has been installed. -/
def cexFinal : TickState := tickN cexAfterSecond 11

/-- **C2 counterexample.** In the concrete two-beat excursion
`cexStart → cexAfterFirst → cexAfterSecond → cexFinal`, the effective preset
snapshotted before the first beat is `⟨0⟩`, but the re-triggering second beat
overwrites `non_beat_preset` with the mid-transition blend `⟨1/2⟩`, and the
eventual return transition's destination is `⟨1/2⟩ ≠ ⟨0⟩` — refuting the
claim that re-triggering beats do not change the pre-beat snapshot. -/
theorem retrigger_changes_snapshot_cex :
    cexStart.slime.get_preset 10 = ⟨0⟩ ∧
    cexAfterFirst.non_beat_preset = ⟨0⟩ ∧
    cexAfterSecond.non_beat_preset = ⟨1 / 2⟩ ∧
    cexAfterSecond.non_beat_preset ≠ cexAfterFirst.non_beat_preset ∧
    cexFinal.beat_start_time = -1 ∧
    cexFinal.slime.transition = ⟨⟨1⟩, ⟨1 / 2⟩, 258 / 25, 1 / 10⟩ ∧
    cexFinal.slime.transition.dest ≠ cexStart.slime.get_preset 10 := by
  have h0 : cexStart.slime.get_preset 10 = ⟨0⟩ := by
    rw [show cexStart.slime.get_preset 10 =
        Transition.effective ⟨⟨0⟩, ⟨0⟩, 0, 1⟩ 10 from rfl]
    simp [Transition.effective, Preset.lerp]
  have f1adv : advanceTime cexStart.u_time cexStart.u_time_takeover = 10 := by
    norm_num [cexStart, advanceTime]
  have f1u : cexAfterFirst.u_time = 10 := by
    rw [show cexAfterFirst.u_time =
        advanceTime cexStart.u_time cexStart.u_time_takeover from rfl, f1adv]
  have f1tk : cexAfterFirst.u_time_takeover = false := rfl
  have f1b : cexAfterFirst.beat_start_time = 10 := by
    rw [show cexAfterFirst.beat_start_time =
        advanceTime cexStart.u_time cexStart.u_time_takeover from rfl, f1adv]
  have f1bp : cexAfterFirst.beat_preset = ⟨1⟩ := rfl
  have f1nbp : cexAfterFirst.non_beat_preset = ⟨0⟩ := by
    rw [show cexAfterFirst.non_beat_preset = cexStart.slime.get_preset
        (advanceTime cexStart.u_time cexStart.u_time_takeover) from rfl,
      f1adv, h0]
  have f1tr : cexAfterFirst.slime.transition = ⟨⟨0⟩, ⟨1⟩, 10, 1 / 5⟩ := by
    rw [show cexAfterFirst.slime.transition =
        (⟨cexStart.slime.get_preset
            (advanceTime cexStart.u_time cexStart.u_time_takeover),
          cexStart.beat_preset,
          advanceTime cexStart.u_time cexStart.u_time_takeover, 1 / 5⟩ :
          Transition) from rfl, f1adv, h0]
    rfl
  obtain ⟨g4u, g4tk, g4b, g4tr, g4bp, g4nbp, -⟩ :=
    tickN_hold cexAfterFirst f1tk (by rw [f1b, f1u]) 4 (by omega)
  have f2adv : advanceTime (tickN cexAfterFirst 4).u_time
      (tickN cexAfterFirst 4).u_time_takeover = 101 / 10 := by
    rw [g4tk, g4u, f1u, advanceTime]
    norm_num
  have f2nbp : cexAfterSecond.non_beat_preset = ⟨1 / 2⟩ := by
    rw [show cexAfterSecond.non_beat_preset =
        (tickN cexAfterFirst 4).slime.get_preset
          (advanceTime (tickN cexAfterFirst 4).u_time
            (tickN cexAfterFirst 4).u_time_takeover) from rfl,
      f2adv, SlimeMould.get_preset, g4tr, f1tr, Transition.effective]
    rw [show ((101 : ℚ) / 10 - 10) / (1 / 5) = 1 / 2 by norm_num,
      clamp01_of_mem _ (by norm_num) (by norm_num), Preset.lerp]
    norm_num
  have f2u : cexAfterSecond.u_time = 101 / 10 := by
    rw [show cexAfterSecond.u_time =
        advanceTime (tickN cexAfterFirst 4).u_time
          (tickN cexAfterFirst 4).u_time_takeover from rfl, f2adv]
  have f2tk : cexAfterSecond.u_time_takeover = false := by
    rw [show cexAfterSecond.u_time_takeover =
        (tickN cexAfterFirst 4).u_time_takeover from rfl, g4tk]
  have f2b : cexAfterSecond.beat_start_time = 101 / 10 := by
    rw [show cexAfterSecond.beat_start_time =
        advanceTime (tickN cexAfterFirst 4).u_time
          (tickN cexAfterFirst 4).u_time_takeover from rfl, f2adv]
  have f2bp : cexAfterSecond.beat_preset = ⟨1⟩ := by
    rw [show cexAfterSecond.beat_preset =
        (tickN cexAfterFirst 4).beat_preset from rfl, g4bp, f1bp]
  obtain ⟨j10u, j10tk, j10b, j10tr, j10bp, j10nbp, -⟩ :=
    tickN_hold cexAfterSecond f2tk (by rw [f2b, f2u]) 10 (by omega)
  have f3adv : advanceTime (tickN cexAfterSecond 10).u_time
      (tickN cexAfterSecond 10).u_time_takeover = 258 / 25 := by
    rw [j10tk, j10u, f2u, advanceTime]
    norm_num
  have hcond : (tickN cexAfterSecond 10).beat_start_time > 0 ∧
      advanceTime (tickN cexAfterSecond 10).u_time
          (tickN cexAfterSecond 10).u_time_takeover -
        (tickN cexAfterSecond 10).beat_start_time > 1 / 5 := by
    rw [f3adv, j10b, f2u]
    norm_num
  obtain ⟨e1, e2, -⟩ := tick_quiet_fire (tickN cexAfterSecond 10) hcond
  have h11 : cexFinal =
      (tick (tickN cexAfterSecond 10) [] [] [] pDefault pDefault).2 := rfl
  have ftr : cexFinal.slime.transition = ⟨⟨1⟩, ⟨1 / 2⟩, 258 / 25, 1 / 10⟩ := by
    rw [h11, e1, f3adv, j10bp, f2bp, j10nbp, f2nbp]
  have fb : cexFinal.beat_start_time = -1 := by rw [h11, e2]
  refine ⟨h0, f1nbp, f2nbp, ?_, fb, ftr, ?_⟩
  · rw [f2nbp, f1nbp]
    simp [Preset.mk.injEq]
  · rw [ftr, h0]
    simp [Preset.mk.injEq]

/-- **C2 (amended).** Every beat — the first of an excursion or a
re-triggering beat while one is active — re-snapshots `non_beat_preset` to
the *current effective* (possibly mid-blend) preset and restarts the fast
0.2-duration transition toward `beat_preset` from that snapshot; and the
eventual return transition's destination is whatever `non_beat_preset` holds
when the hold window elapses, i.e. the snapshot taken at the *last* beat of
the excursion, not the one taken before its first beat. -/
theorem beat_retrigger_resnapshots (s : TickState) (b : ℚ) :
    (afterBeat s b).non_beat_preset =
        s.slime.get_preset (advanceTime s.u_time s.u_time_takeover) ∧
    (afterBeat s b).slime.transition =
      ⟨(afterBeat s b).non_beat_preset, s.beat_preset,
        advanceTime s.u_time s.u_time_takeover, 1 / 5⟩ ∧
    (afterBeat s b).beat_start_time = advanceTime s.u_time s.u_time_takeover ∧
    (s.beat_start_time > 0 →
      advanceTime s.u_time s.u_time_takeover - s.beat_start_time > 1 / 5 →
      (tick s [] [] [] pDefault pDefault).2.slime.transition =
        ⟨s.beat_preset, s.non_beat_preset,
          advanceTime s.u_time s.u_time_takeover, 1 / 10⟩) :=
  ⟨rfl, rfl, rfl, fun h1 h2 => (tick_quiet_fire s ⟨h1, h2⟩).1⟩

/-- Witness for `beat_retrigger_resnapshots`: at a concrete state with an
expired hold window, the quiet tick installs the return transition toward
the stored snapshot. -/
theorem beat_retrigger_resnapshots_witness :
    (tick ⟨⟨⟨⟨0⟩, ⟨1⟩, 0, 1⟩, 0, 0, 0, 0⟩, 10, false, 5, ⟨1⟩, ⟨0⟩, false, 0⟩
        [] [] [] pDefault pDefault).2.slime.transition =
      ⟨⟨1⟩, ⟨0⟩, advanceTime 10 false, 1 / 10⟩ :=
  (beat_retrigger_resnapshots
      ⟨⟨⟨⟨0⟩, ⟨1⟩, 0, 1⟩, 0, 0, 0, 0⟩, 10, false, 5, ⟨1⟩, ⟨0⟩, false, 0⟩
      0).2.2.2 (show (5 : ℚ) > 0 by norm_num)
    (show advanceTime 10 false - 5 > 1 / 5 by norm_num [advanceTime])

lemma applyFlags_load_only (s : TickState) (slime0 : SlimeMould) (u : ℚ)
    (tk : Bool) (n : ℕ) (r1 r2 : Preset) (a : Action)
    (hb : s.beat_start_time ≤ 0) :
    (applyFlags s slime0 u tk
        { initFlags with load_preset_number := (n : ℤ) } false r1 r2
        a).2.slime.pointsGen = slime0.pointsGen + 1 ∧
    (applyFlags s slime0 u tk
        { initFlags with load_preset_number := (n : ℤ) } false r1 r2
        a).2.slime.transition = ⟨slime0.get_preset u, Preset.new n, u, 1⟩ := by
  have hb' : ¬ (0 < s.beat_start_time) := not_lt.2 hb
  constructor <;>
    simp [applyFlags, initFlags, Int.natCast_nonneg, Int.toNat_natCast,
      SlimeMould.transition_preset, SlimeMould.reset_points, hb']

lemma applyFlags_randomize_only (s : TickState) (slime0 : SlimeMould) (u : ℚ)
    (tk : Bool) (r1 r2 : Preset) (a : Action)
    (hb : s.beat_start_time ≤ 0) :
    (applyFlags s slime0 u tk
        { initFlags with randomize_preset := true } false r1 r2
        a).2.slime.pointsGen = slime0.pointsGen ∧
    (applyFlags s slime0 u tk
        { initFlags with randomize_preset := true } false r1 r2
        a).2.slime.transition = ⟨slime0.get_preset u, r1, u, 1⟩ := by
  have hb' : ¬ (0 < s.beat_start_time) := not_lt.2 hb
  constructor <;>
    simp [applyFlags, initFlags, SlimeMould.transition_preset, hb']

/-- **C9.** Loading a preset by number — via a pad in `0..9` or a digit-row
key (scancode in `[2, 11]`) — both installs a 1.0-duration transition to the
selected preset and regenerates the agent population (`reset_points` bumps
the points generation); the randomize-preset action — pad 12 or the R key —
installs a transition to the random preset but leaves the agent points
untouched. Stated for ticks with no active beat excursion and only the named
input. -/
theorem load_resets_points_randomize_does_not (s : TickState)
    (p v e sc : ℕ) (r1 r2 : Preset) (hb : s.beat_start_time ≤ 0) :
    (p ≤ 9 →
      (tick s [] [] [.PadPressed p v e] r1 r2).2.slime.pointsGen =
          s.slime.pointsGen + 1 ∧
      (tick s [] [] [.PadPressed p v e] r1 r2).2.slime.transition =
        ⟨s.slime.get_preset (advanceTime s.u_time s.u_time_takeover),
          Preset.new p, advanceTime s.u_time s.u_time_takeover, 1⟩) ∧
    (2 ≤ sc → sc ≤ 11 →
      (tick s [] [.WindowEvent true (.KeyboardInput ⟨true, none, sc⟩)] []
          r1 r2).2.slime.pointsGen = s.slime.pointsGen + 1 ∧
      (tick s [] [.WindowEvent true (.KeyboardInput ⟨true, none, sc⟩)] []
          r1 r2).2.slime.transition =
        ⟨s.slime.get_preset (advanceTime s.u_time s.u_time_takeover),
          Preset.new ((sc - 1) % 10),
          advanceTime s.u_time s.u_time_takeover, 1⟩) ∧
    ((tick s [] [] [.PadPressed 12 v e] r1 r2).2.slime.pointsGen =
        s.slime.pointsGen ∧
      (tick s [] [] [.PadPressed 12 v e] r1 r2).2.slime.transition =
        ⟨s.slime.get_preset (advanceTime s.u_time s.u_time_takeover), r1,
          advanceTime s.u_time s.u_time_takeover, 1⟩) ∧
    ((tick s []
          [.WindowEvent true (.KeyboardInput ⟨true, some .R, 19⟩)] []
          r1 r2).2.slime.pointsGen = s.slime.pointsGen ∧
      (tick s []
          [.WindowEvent true (.KeyboardInput ⟨true, some .R, 19⟩)] []
          r1 r2).2.slime.transition =
        ⟨s.slime.get_preset (advanceTime s.u_time s.u_time_takeover), r1,
          advanceTime s.u_time s.u_time_takeover, 1⟩) := by
  refine ⟨?_, ?_, ?_, ?_⟩
  · intro hp
    have hacc : tickAcc s [] [.PadPressed p v e] =
        ⟨{ initFlags with load_preset_number := (p : ℤ) },
          advanceTime s.u_time s.u_time_takeover, s.u_time_takeover⟩ := by
      simp [tickAcc, processWindowEvents, stepMidi, hp]
    have htick : tick s [] [] [.PadPressed p v e] r1 r2 =
        applyFlags s s.slime.update (tickAcc s [] [.PadPressed p v e]).u_time
          (tickAcc s [] [.PadPressed p v e]).u_time_takeover
          (tickAcc s [] [.PadPressed p v e]).flags false r1 r2
          Action.Continue := rfl
    rw [htick, hacc]
    exact applyFlags_load_only s s.slime.update _ _ p r1 r2 Action.Continue hb
  · intro h2 h11
    have hacc : tickAcc s [.WindowEvent true (.KeyboardInput ⟨true, none, sc⟩)]
        [] = ⟨{ initFlags with load_preset_number := (((sc - 1) % 10 : ℕ) : ℤ) },
          advanceTime s.u_time s.u_time_takeover, s.u_time_takeover⟩ := by
      simp [tickAcc, processWindowEvents, stepWindowEvent, applyKeyFlags,
        h2, h11]
    have htick : tick s []
        [.WindowEvent true (.KeyboardInput ⟨true, none, sc⟩)] [] r1 r2 =
        applyFlags s s.slime.update
          (tickAcc s [.WindowEvent true (.KeyboardInput ⟨true, none, sc⟩)]
            []).u_time
          (tickAcc s [.WindowEvent true (.KeyboardInput ⟨true, none, sc⟩)]
            []).u_time_takeover
          (tickAcc s [.WindowEvent true (.KeyboardInput ⟨true, none, sc⟩)]
            []).flags false r1 r2 Action.Continue := rfl
    rw [htick, hacc]
    exact applyFlags_load_only s s.slime.update _ _ ((sc - 1) % 10) r1 r2
      Action.Continue hb
  · have hacc : tickAcc s [] [.PadPressed 12 v e] =
        ⟨{ initFlags with randomize_preset := true },
          advanceTime s.u_time s.u_time_takeover, s.u_time_takeover⟩ := by
      simp [tickAcc, processWindowEvents, stepMidi]
    have htick : tick s [] [] [.PadPressed 12 v e] r1 r2 =
        applyFlags s s.slime.update (tickAcc s [] [.PadPressed 12 v e]).u_time
          (tickAcc s [] [.PadPressed 12 v e]).u_time_takeover
          (tickAcc s [] [.PadPressed 12 v e]).flags false r1 r2
          Action.Continue := rfl
    rw [htick, hacc]
    exact applyFlags_randomize_only s s.slime.update _ _ r1 r2
      Action.Continue hb
  · have hacc : tickAcc s
        [.WindowEvent true (.KeyboardInput ⟨true, some .R, 19⟩)] [] =
        ⟨{ initFlags with randomize_preset := true },
          advanceTime s.u_time s.u_time_takeover, s.u_time_takeover⟩ := by
      simp [tickAcc, processWindowEvents, stepWindowEvent, applyKeyFlags]
    have htick : tick s []
        [.WindowEvent true (.KeyboardInput ⟨true, some .R, 19⟩)] [] r1 r2 =
        applyFlags s s.slime.update
          (tickAcc s [.WindowEvent true (.KeyboardInput ⟨true, some .R, 19⟩)]
            []).u_time
          (tickAcc s [.WindowEvent true (.KeyboardInput ⟨true, some .R, 19⟩)]
            []).u_time_takeover
          (tickAcc s [.WindowEvent true (.KeyboardInput ⟨true, some .R, 19⟩)]
            []).flags false r1 r2 Action.Continue := rfl
    rw [htick, hacc]
    exact applyFlags_randomize_only s s.slime.update _ _ r1 r2
      Action.Continue hb

/-- Witness for `load_resets_points_randomize_does_not`: at a concrete state
with points generation 5, loading preset 3 by pad bumps it to 6 while the
randomize action (pad 12) leaves it at 5. -/
theorem load_resets_points_witness :
    (tick ⟨⟨⟨⟨0⟩, ⟨1⟩, 0, 1⟩, 5, 0, 0, 0⟩, 10, false, -1, ⟨1⟩, ⟨0⟩, false, 0⟩
        [] [] [.PadPressed 3 1 0] pDefault pDefault).2.slime.pointsGen = 6 ∧
    (tick ⟨⟨⟨⟨0⟩, ⟨1⟩, 0, 1⟩, 5, 0, 0, 0⟩, 10, false, -1, ⟨1⟩, ⟨0⟩, false, 0⟩
        [] [] [.PadPressed 12 1 0] pDefault pDefault).2.slime.pointsGen = 5 :=
  ⟨((load_resets_points_randomize_does_not _ 3 1 0 2 pDefault pDefault
      (show (-1 : ℚ) ≤ 0 by norm_num)).1 (by norm_num)).1,
   ((load_resets_points_randomize_does_not _ 3 1 0 2 pDefault pDefault
      (show (-1 : ℚ) ≤ 0 by norm_num)).2.2.1).1⟩

/-- **C10.** Knob 0 at value 0 sets `u_time` to `0` (a); a beat recorded
while takeover holds `u_time` at a non-positive value leaves
`beat_start_time` equal to that non-positive time (b); and from any state
with `beat_start_time ≤ 0`, arbitrarily many quiet ticks never arm the
return transition: the installed transition and `beat_start_time` are
unchanged — a non-positive `beat_start_time` behaves exactly like the
"not active" sentinel (c). -/
theorem nonpositive_beat_start_is_sentinel (s : TickState) (e : ℕ) (b : ℚ) :
    ((tick s [] [] [.KnobChanged 0 0 e] pDefault pDefault).2.u_time = 0) ∧
    (s.u_time_takeover = true → s.u_time ≤ 0 →
      (afterBeat s b).beat_start_time = s.u_time ∧
        (afterBeat s b).beat_start_time ≤ 0) ∧
    (s.beat_start_time ≤ 0 →
      ∀ k : ℕ, (tickN s k).slime.transition = s.slime.transition ∧
        (tickN s k).beat_start_time = s.beat_start_time) := by
  refine ⟨?_, ?_, ?_⟩
  · rw [tick_snd_u_time]
    show ((0 : ℕ) : ℚ) / 127 = 0
    norm_num
  · intro hT hU
    have hb : (afterBeat s b).beat_start_time = s.u_time := by
      rw [afterBeat_beat_start, hT]
      simp [advanceTime]
    exact ⟨hb, hb ▸ hU⟩
  · intro hb k
    induction k with
    | zero => exact ⟨rfl, rfl⟩
    | succ n ih =>
      have step : tickN s (n + 1) =
          (tick (tickN s n) [] [] [] pDefault pDefault).2 := rfl
      have hcond : ¬((tickN s n).beat_start_time > 0 ∧
          advanceTime (tickN s n).u_time (tickN s n).u_time_takeover -
            (tickN s n).beat_start_time > 1 / 5) := by
        rintro ⟨h1, -⟩
        rw [ih.2] at h1
        exact absurd h1 (not_lt.2 hb)
      rw [step, tick_quiet, if_neg hcond]
      exact ⟨ih.1, ih.2⟩

/-- Witness for `nonpositive_beat_start_is_sentinel`: with takeover holding
`u_time` at `0`, a beat records `beat_start_time = 0`, and twenty quiet
ticks from a state with `beat_start_time = 0` leave the installed transition
and `beat_start_time` untouched. -/
theorem nonpositive_beat_start_witness :
    ((afterBeat ⟨⟨⟨⟨0⟩, ⟨1⟩, 0, 1⟩, 0, 0, 0, 0⟩, 0, true, 0, ⟨1⟩, ⟨0⟩, false, 0⟩
        120).beat_start_time = 0 ∧
      (afterBeat ⟨⟨⟨⟨0⟩, ⟨1⟩, 0, 1⟩, 0, 0, 0, 0⟩, 0, true, 0, ⟨1⟩, ⟨0⟩, false,
        0⟩ 120).beat_start_time ≤ 0) ∧
    ((tickN ⟨⟨⟨⟨0⟩, ⟨1⟩, 0, 1⟩, 0, 0, 0, 0⟩, 0, true, 0, ⟨1⟩, ⟨0⟩, false, 0⟩
        20).slime.transition = ⟨⟨0⟩, ⟨1⟩, 0, 1⟩ ∧
      (tickN ⟨⟨⟨⟨0⟩, ⟨1⟩, 0, 1⟩, 0, 0, 0, 0⟩, 0, true, 0, ⟨1⟩, ⟨0⟩, false, 0⟩
        20).beat_start_time = 0) :=
  ⟨(nonpositive_beat_start_is_sentinel
      ⟨⟨⟨⟨0⟩, ⟨1⟩, 0, 1⟩, 0, 0, 0, 0⟩, 0, true, 0, ⟨1⟩, ⟨0⟩, false, 0⟩ 0
      120).2.1 rfl (show (0 : ℚ) ≤ 0 by norm_num),
   (nonpositive_beat_start_is_sentinel
      ⟨⟨⟨⟨0⟩, ⟨1⟩, 0, 1⟩, 0, 0, 0, 0⟩, 0, true, 0, ⟨1⟩, ⟨0⟩, false, 0⟩ 0
      120).2.2 (show (0 : ℚ) ≤ 0 by norm_num) 20⟩

end RustMold
